import Mathlib

/-!
Verification of the Skyetrain article template scripts (A4 preset in
`skyetrain_article_template.js`, 6x9 "mobile" preset in the second script).
The scripts assemble a flat list of styled paragraph/run objects from a
content description and fixed design tokens, then hand the tree to the
external `docx` serializer.  We embed the data model, the design tokens of
both presets, and the builder functions (`makeRuns`, `bodyP`, `bulletP`,
`sectionHeading`, `spacer`, `buildSection`, the title block and the document
wrapper) as pure Lean functions, and prove the spec claims about them.
-/

namespace Skyetrain

/-- A text span in the content description: `{ text, bold, italics }`,
with both flags defaulting to false (JS `s.bold || false`). -/
structure Span where
  text : String
  bold : Bool := false
  italics : Bool := false
deriving Repr, DecidableEq

/-- A section of the content object.  At the builder level every body field
is guarded by a JS truthiness test (`if (sec.paragraphs) ...`), so each is
modelled as an `Option`; an absent field is `none`. -/
structure Section where
  heading : String
  paragraphs : Option (List (List Span)) := none
  bullets : Option (List String) := none
  after : Option (List (List Span)) := none
  bullets2 : Option (List String) := none
  after2 : Option (List (List Span)) := none
deriving Repr, DecidableEq

/-- The `content` object: title, subtitle, author, ordered sections. -/
structure Content where
  title : String
  subtitle : String
  author : String
  sections : List Section
deriving Repr, DecidableEq

/-- The `PALETTE` design-token group. -/
structure Palette where
  text : String
  subtitle : String
  heading : String
  accentBlue : String
  accentRed : String
deriving Repr, DecidableEq

/-- The `FONTS` design-token group. -/
structure Fonts where
  body : String
  heading : String
deriving Repr, DecidableEq

/-- The `SIZES` design-token group (half-point units). -/
structure Sizes where
  body : Nat
  heading : Nat
  title : Nat
  subtitle : Nat
  meta : Nat
deriving Repr, DecidableEq

/-- The `SPACING` design-token group. -/
structure SpacingTokens where
  bodyAfter : Nat
  bodyLine : Nat
  bulletAfter : Nat
  sectionBefore : Nat
  sectionAfter : Nat
  titleBlockEnd : Nat
deriving Repr, DecidableEq

/-- All design-token groups together, as the builder functions close over
them. -/
structure Tokens where
  palette : Palette
  fonts : Fonts
  sizes : Sizes
  spacing : SpacingTokens
deriving Repr, DecidableEq

/-- `PALETTE` of the A4 script. -/
def PALETTE_A4 : Palette :=
  { text := "3A3A3A", subtitle := "777777", heading := "2A2A2A",
    accentBlue := "3D4DB7", accentRed := "C65D4A" }

/-- `FONTS` of the A4 script. -/
def FONTS_A4 : Fonts := { body := "Georgia", heading := "Arial" }

/-- `SIZES` of the A4 script. -/
def SIZES_A4 : Sizes :=
  { body := 22, heading := 26, title := 38, subtitle := 20, meta := 16 }

/-- `SPACING` of the A4 script. -/
def SPACING_A4 : SpacingTokens :=
  { bodyAfter := 180, bodyLine := 336, bulletAfter := 80,
    sectionBefore := 600, sectionAfter := 180, titleBlockEnd := 480 }

/-- `PALETTE` of the 6x9 mobile script. -/
def PALETTE_M : Palette :=
  { text := "3A3A3A", subtitle := "777777", heading := "2A2A2A",
    accentBlue := "3D4DB7", accentRed := "C65D4A" }

/-- `FONTS` of the 6x9 mobile script. -/
def FONTS_M : Fonts := { body := "Georgia", heading := "Arial" }

/-- `SIZES` of the 6x9 mobile script. -/
def SIZES_M : Sizes :=
  { body := 22, heading := 26, title := 38, subtitle := 20, meta := 16 }

/-- `SPACING` of the 6x9 mobile script. -/
def SPACING_M : SpacingTokens :=
  { bodyAfter := 180, bodyLine := 336, bulletAfter := 80,
    sectionBefore := 600, sectionAfter := 180, titleBlockEnd := 400 }

/-- The token bundle the A4 builders close over. -/
def a4Tokens : Tokens :=
  { palette := PALETTE_A4, fonts := FONTS_A4, sizes := SIZES_A4,
    spacing := SPACING_A4 }

/-- The token bundle the 6x9 mobile builders close over. -/
def mTokens : Tokens :=
  { palette := PALETTE_M, fonts := FONTS_M, sizes := SIZES_M,
    spacing := SPACING_M }

/-- JavaScript `Math.round` on a rational: round half away from zero is
`floor (q + 1/2)` for the non-negative values used here. -/
def jsRound (q : ℚ) : ℤ := ⌊q + 1 / 2⌋

/-- `LOGO_ASPECT = 466 / 2000`, the hardcoded height/width ratio of the
logo source image (identical in both scripts). -/
def LOGO_ASPECT : ℚ := 466 / 2000

/-- `LOGO_DISPLAY_W` of the A4 script. -/
def LOGO_DISPLAY_W_A4 : Nat := 180

/-- `LOGO_DISPLAY_H = Math.round(LOGO_DISPLAY_W * LOGO_ASPECT)` (A4). -/
def LOGO_DISPLAY_H_A4 : ℤ := jsRound (LOGO_DISPLAY_W_A4 * LOGO_ASPECT)

/-- `LOGO_DISPLAY_W` of the 6x9 mobile script. -/
def LOGO_DISPLAY_W_M : Nat := 150

/-- `LOGO_DISPLAY_H = Math.round(LOGO_DISPLAY_W * LOGO_ASPECT)` (mobile). -/
def LOGO_DISPLAY_H_M : ℤ := jsRound (LOGO_DISPLAY_W_M * LOGO_ASPECT)

/-- A rendered `TextRun` object: the style properties the scripts set.
`characterSpacing` is `none` when the constructor call omits it. -/
structure TextRun where
  text : String
  font : String
  size : Nat
  color : String
  bold : Bool := false
  italics : Bool := false
  characterSpacing : Option Nat := none
deriving Repr, DecidableEq

/-- A run inside a paragraph: either a text run or the logo `ImageRun`
(raw bytes plus the display transformation). -/
inductive Run where
  | text : TextRun → Run
  | image : (data : List Nat) → (width : Nat) → (height : ℤ) → Run
deriving Repr, DecidableEq

/-- A paragraph `spacing` option object. -/
structure ParaSpacing where
  before : Option Nat := none
  after : Option Nat := none
  line : Option Nat := none
deriving Repr, DecidableEq

/-- Paragraph alignment values used by the scripts. -/
inductive Alignment where
  | left
  | center
  | right
deriving Repr, DecidableEq

/-- One border edge: the scripts always use `BorderStyle.SINGLE`, so only
size, color and space are recorded. -/
structure BorderSide where
  size : Nat
  color : String
  space : Nat
deriving Repr, DecidableEq

/-- A paragraph `border` option object. -/
structure ParaBorder where
  left : Option BorderSide := none
  bottom : Option BorderSide := none
  top : Option BorderSide := none
deriving Repr, DecidableEq

/-- A paragraph `numbering` reference. -/
structure NumberingRef where
  reference : String
  level : Nat
deriving Repr, DecidableEq

/-- A rendered `Paragraph` block: every property any of the builders sets.
Omitted properties keep the library defaults (false / none). -/
structure Paragraph where
  spacing : ParaSpacing := {}
  alignment : Option Alignment := none
  widowControl : Bool := false
  keepNext : Bool := false
  keepLines : Bool := false
  border : ParaBorder := {}
  indentLeft : Option Nat := none
  numbering : Option NumberingRef := none
  children : List Run := []
deriving Repr, DecidableEq

/-- `makeRuns(spans)`: one text run per span; font is the heading font when
the span is bold, else the body font; body size and text color throughout. -/
def makeRuns (tk : Tokens) (spans : List Span) : List Run :=
  spans.map fun s => .text
    { text := s.text,
      font := if s.bold then tk.fonts.heading else tk.fonts.body,
      size := tk.sizes.body,
      color := tk.palette.text,
      bold := s.bold,
      italics := s.italics }

/-- `bodyP(spans)`: a body paragraph with widow control and body spacing. -/
def bodyP (tk : Tokens) (spans : List Span) : Paragraph :=
  { spacing := { after := some tk.spacing.bodyAfter,
                 line := some tk.spacing.bodyLine },
    widowControl := true,
    children := makeRuns tk spans }

/-- `bulletP(text)`: one list item of the shared `mainBullets` numbering. -/
def bulletP (tk : Tokens) (text : String) : Paragraph :=
  { numbering := some { reference := "mainBullets", level := 0 },
    spacing := { after := some tk.spacing.bulletAfter,
                 line := some tk.spacing.bodyLine },
    children := [.text { text := text, font := tk.fonts.body,
                         size := tk.sizes.body, color := tk.palette.text }] }

/-- `sectionHeading(text)`: blue left-border accent, keepNext/keepLines,
bold heading-font run. -/
def sectionHeading (tk : Tokens) (text : String) : Paragraph :=
  { spacing := { before := some tk.spacing.sectionBefore,
                 after := some tk.spacing.sectionAfter },
    keepNext := true,
    keepLines := true,
    border := { left := some { size := 14, color := tk.palette.accentBlue,
                               space := 10 } },
    indentLeft := some 240,
    children := [.text { text := text, font := tk.fonts.heading,
                         size := tk.sizes.heading, bold := true,
                         color := tk.palette.heading }] }

/-- `spacer(after)`: an empty paragraph with only trailing spacing.  The
scripts only ever invoke it as `spacer(60)`. -/
def spacer (after : Nat) : Paragraph :=
  { spacing := { after := some after } }

/-- `buildSection(sec)`: heading, then each guarded body group in declared
order.  A JS `if (sec.after)` that fires pushes `spacer(60)` before the
after-paragraphs. -/
def buildSection (tk : Tokens) (sec : Section) : List Paragraph :=
  [sectionHeading tk sec.heading]
  ++ (sec.paragraphs.getD []).map (bodyP tk)
  ++ (sec.bullets.getD []).map (bulletP tk)
  ++ (match sec.after with
      | some ps => spacer 60 :: ps.map (bodyP tk)
      | none => [])
  ++ (sec.bullets2.getD []).map (bulletP tk)
  ++ (match sec.after2 with
      | some ps => spacer 60 :: ps.map (bodyP tk)
      | none => [])

/-- A4 title block, paragraph 1: the centred logo. -/
def logoParagraphA4 (logoData : List Nat) : Paragraph :=
  { alignment := some .center,
    spacing := { before := some 200, after := some 360 },
    children := [.image logoData LOGO_DISPLAY_W_A4 LOGO_DISPLAY_H_A4] }

/-- A4 title block, paragraph 2: the centred, letter-spaced, bold title. -/
def titleParagraphA4 (c : Content) : Paragraph :=
  { spacing := { before := some 60, after := some 240 },
    alignment := some .center,
    children := [.text { text := c.title, font := FONTS_A4.heading,
                         size := SIZES_A4.title, bold := true,
                         color := PALETTE_A4.heading,
                         characterSpacing := some 80 }] }

/-- A4 title block, paragraph 3: the centred italic subtitle. -/
def subtitleParagraphA4 (c : Content) : Paragraph :=
  { spacing := { after := some 160 },
    alignment := some .center,
    children := [.text { text := c.subtitle, font := FONTS_A4.body,
                         size := SIZES_A4.subtitle, italics := true,
                         color := PALETTE_A4.subtitle }] }

/-- A4 title block, paragraph 4: the red accent rule closing the block. -/
def redRuleA4 : Paragraph :=
  { spacing := { after := some 100 },
    border := { bottom := some { size := 6, color := PALETTE_A4.accentRed,
                                 space := 1 } } }

/-- A4 title block, paragraph 5: the right-aligned author line. -/
def authorParagraphA4 (c : Content) : Paragraph :=
  { spacing := { after := some SPACING_A4.titleBlockEnd },
    alignment := some .right,
    children := [.text { text := "by " ++ c.author, font := FONTS_A4.body,
                         size := SIZES_A4.subtitle,
                         color := PALETTE_A4.subtitle }] }

/-- The A4 `children` array: the five title-block paragraphs followed by
each section's blocks in order. -/
def renderChildrenA4 (logoData : List Nat) (c : Content) : List Paragraph :=
  [logoParagraphA4 logoData, titleParagraphA4 c, subtitleParagraphA4 c,
   redRuleA4, authorParagraphA4 c]
  ++ c.sections.flatMap (buildSection a4Tokens)

/-- Mobile title block, paragraph 1: the centred logo. -/
def logoParagraphM (logoData : List Nat) : Paragraph :=
  { alignment := some .center,
    spacing := { before := some 120, after := some 300 },
    children := [.image logoData LOGO_DISPLAY_W_M LOGO_DISPLAY_H_M] }

/-- Mobile title block, paragraph 2: the centred, letter-spaced title. -/
def titleParagraphM (c : Content) : Paragraph :=
  { spacing := { before := some 60, after := some 200 },
    alignment := some .center,
    children := [.text { text := c.title, font := FONTS_M.heading,
                         size := SIZES_M.title, bold := true,
                         color := PALETTE_M.heading,
                         characterSpacing := some 80 }] }

/-- Mobile title block, paragraph 3: the centred italic subtitle. -/
def subtitleParagraphM (c : Content) : Paragraph :=
  { spacing := { after := some 140 },
    alignment := some .center,
    children := [.text { text := c.subtitle, font := FONTS_M.body,
                         size := SIZES_M.subtitle, italics := true,
                         color := PALETTE_M.subtitle }] }

/-- Mobile title block, paragraph 4: the red accent rule. -/
def redRuleM : Paragraph :=
  { spacing := { after := some 80 },
    border := { bottom := some { size := 6, color := PALETTE_M.accentRed,
                                 space := 1 } } }

/-- Mobile title block, paragraph 5: the right-aligned author line. -/
def authorParagraphM (c : Content) : Paragraph :=
  { spacing := { after := some SPACING_M.titleBlockEnd },
    alignment := some .right,
    children := [.text { text := "by " ++ c.author, font := FONTS_M.body,
                         size := SIZES_M.subtitle,
                         color := PALETTE_M.subtitle }] }

/-- The mobile `children` array. -/
def renderChildrenM (logoData : List Nat) (c : Content) : List Paragraph :=
  [logoParagraphM logoData, titleParagraphM c, subtitleParagraphM c,
   redRuleM, authorParagraphM c]
  ++ c.sections.flatMap (buildSection mTokens)

/-- Page size and margins of a preset. -/
structure PageSetup where
  width : Nat
  height : Nat
  marginTop : Nat
  marginRight : Nat
  marginBottom : Nat
  marginLeft : Nat
deriving Repr, DecidableEq

/-- The shared bullet-list numbering definition: level 0, bullet character,
left alignment, the fixed indents. -/
structure BulletConfig where
  reference : String
  level : Nat
  bulletText : String
  indentLeft : Nat
  hanging : Nat
deriving Repr, DecidableEq

/-- The assembled `Document` options: page setup, header and footer
paragraphs, default run style, bullet numbering config, and the body
block list. -/
structure DocModel where
  page : PageSetup
  headerChildren : List Paragraph
  footerChildren : List Paragraph
  defaultFont : String
  defaultSize : Nat
  bullets : BulletConfig
  children : List Paragraph
deriving Repr, DecidableEq

/-- The A4 page header paragraph: right-aligned "SKYETRAIN" label over a
blue bottom rule. -/
def headerParagraphA4 : Paragraph :=
  { alignment := some .right,
    spacing := { after := some 80 },
    border := { bottom := some { size := 6, color := PALETTE_A4.accentBlue,
                                 space := 6 } },
    children := [.text { text := "SKYETRAIN", font := FONTS_A4.heading,
                         size := SIZES_A4.meta, color := "CCCCCC",
                         characterSpacing := some 60 }] }

/-- The A4 page footer paragraph: centred italic site label under a blue
top rule. -/
def footerParagraphA4 : Paragraph :=
  { alignment := some .center,
    border := { top := some { size := 6, color := PALETTE_A4.accentBlue,
                              space := 6 } },
    children := [.text { text := "skyetrain.com", font := FONTS_A4.body,
                         size := SIZES_A4.meta, italics := true,
                         color := "CCCCCC" }] }

/-- The mobile page header paragraph (identical construction). -/
def headerParagraphM : Paragraph :=
  { alignment := some .right,
    spacing := { after := some 80 },
    border := { bottom := some { size := 6, color := PALETTE_M.accentBlue,
                                 space := 6 } },
    children := [.text { text := "SKYETRAIN", font := FONTS_M.heading,
                         size := SIZES_M.meta, color := "CCCCCC",
                         characterSpacing := some 60 }] }

/-- The mobile page footer paragraph (identical construction). -/
def footerParagraphM : Paragraph :=
  { alignment := some .center,
    border := { top := some { size := 6, color := PALETTE_M.accentBlue,
                              space := 6 } },
    children := [.text { text := "skyetrain.com", font := FONTS_M.body,
                         size := SIZES_M.meta, italics := true,
                         color := "CCCCCC" }] }

/-- The A4 `new Document({...})` call: A4 page size, fixed margins, the
shared bullet config, default body run style, header, footer, children. -/
def renderDocA4 (logoData : List Nat) (c : Content) : DocModel :=
  { page := { width := 11906, height := 16838, marginTop := 1440,
              marginRight := 1600, marginBottom := 1440, marginLeft := 1600 },
    headerChildren := [headerParagraphA4],
    footerChildren := [footerParagraphA4],
    defaultFont := FONTS_A4.body,
    defaultSize := SIZES_A4.body,
    bullets := { reference := "mainBullets", level := 0,
                 bulletText := "•", indentLeft := 720, hanging := 360 },
    children := renderChildrenA4 logoData c }

/-- The mobile `new Document({...})` call: 6x9 page, 0.75in margins. -/
def renderDocM (logoData : List Nat) (c : Content) : DocModel :=
  { page := { width := 8640, height := 12960, marginTop := 1080,
              marginRight := 1080, marginBottom := 1080, marginLeft := 1080 },
    headerChildren := [headerParagraphM],
    footerChildren := [footerParagraphM],
    defaultFont := FONTS_M.body,
    defaultSize := SIZES_M.body,
    bullets := { reference := "mainBullets", level := 0,
                 bulletText := "•", indentLeft := 720, hanging := 360 },
    children := renderChildrenM logoData c }

/-- The fallible part of the program: `fs.readFileSync(LOGO_PATH)` runs at
the top level before any paragraph is constructed; if it throws, nothing
else runs.  The whole A4 script is the sequencing of that read with the
pure document assembly. -/
def runProgramA4 (logoRead : Except String (List Nat)) (c : Content) :
    Except String DocModel :=
  match logoRead with
  | .error e => .error e
  | .ok logoData => .ok (renderDocA4 logoData c)

/-- The text runs of a paragraph (image runs are not text runs). -/
def runsOf (p : Paragraph) : List TextRun :=
  p.children.filterMap fun r =>
    match r with
    | .text t => some t
    | .image _ _ _ => none

/-- All text runs of an assembled document: body, header and footer. -/
def allRuns (d : DocModel) : List TextRun :=
  (d.children ++ d.headerChildren ++ d.footerChildren).flatMap runsOf

/-- The placeholder `content` object the scripts ship with. -/
def exampleContent : Content :=
  { title := "ARTICLE TITLE HERE",
    subtitle := "One-line description of the article",
    author := "Skye Boyland",
    sections := [{ heading := "First section heading",
                   paragraphs := some [[{ text := "First paragraph content." }]] }] }

/-- A text run satisfies the font/bold invariant when its font is the
heading font exactly when its bold flag is set, and is the body font
whenever the bold flag is unset. -/
def fontOk (tk : Tokens) (r : TextRun) : Prop :=
  (r.font = tk.fonts.heading ↔ r.bold = true)
  ∧ (r.bold = false → r.font = tk.fonts.body)

lemma countP_keepNext_buildSection (tk : Tokens) (sec : Section) :
    (buildSection tk sec).countP (fun p => p.keepNext) = 1 := by
  rcases sec with ⟨h, ps, bs, af, bs2, af2⟩
  rcases af with _ | afl <;> rcases af2 with _ | afl2 <;>
    simp [buildSection, List.countP_append, List.countP_cons, List.countP_map,
      Function.comp_def, bodyP, bulletP, sectionHeading, spacer]

lemma countP_keepNext_flatMap (tk : Tokens) (l : List Section) :
    (l.flatMap (buildSection tk)).countP (fun p => p.keepNext) = l.length := by
  induction l with
  | nil => simp
  | cons s t ih =>
      simp [List.flatMap_cons, List.countP_append,
        countP_keepNext_buildSection, ih]
      omega

lemma bodyP_ne_spacer (tk : Tokens) (spans : List Span) (a : Nat) :
    bodyP tk spans ≠ spacer a := by
  intro hcontra
  have h2 := congrArg (fun p => p.widowControl) hcontra
  simp [bodyP, spacer] at h2

lemma bulletP_ne_spacer (tk : Tokens) (t : String) (a : Nat) :
    bulletP tk t ≠ spacer a := by
  intro hcontra
  have h2 := congrArg (fun p => p.numbering) hcontra
  simp [bulletP, spacer] at h2

lemma sectionHeading_ne_spacer (tk : Tokens) (t : String) (a : Nat) :
    sectionHeading tk t ≠ spacer a := by
  intro hcontra
  have h2 := congrArg (fun p => p.keepNext) hcontra
  simp [sectionHeading, spacer] at h2

/-- C1: the rendered children are the five title-block paragraphs (logo,
title, subtitle, red rule, author) followed by each section's blocks; every
built section starts with its heading block, immediately followed by its
paragraph, bullet, spacer and after blocks in declared order; and the
output holds exactly one heading block per section. -/
theorem renderChildrenA4_block_sequence (d : List Nat) (c : Content) :
    renderChildrenA4 d c =
      [logoParagraphA4 d, titleParagraphA4 c, subtitleParagraphA4 c,
       redRuleA4, authorParagraphA4 c]
      ++ c.sections.flatMap (buildSection a4Tokens)
    ∧ (∀ sec : Section, buildSection a4Tokens sec =
        sectionHeading a4Tokens sec.heading ::
          ((sec.paragraphs.getD []).map (bodyP a4Tokens)
           ++ (sec.bullets.getD []).map (bulletP a4Tokens)
           ++ (match sec.after with
               | some ps => spacer 60 :: ps.map (bodyP a4Tokens)
               | none => [])
           ++ (sec.bullets2.getD []).map (bulletP a4Tokens)
           ++ (match sec.after2 with
               | some ps => spacer 60 :: ps.map (bodyP a4Tokens)
               | none => [])))
    ∧ (renderChildrenA4 d c).countP (fun p => p.keepNext)
        = c.sections.length := by
  refine ⟨rfl, fun sec => rfl, ?_⟩
  simp [renderChildrenA4, List.countP_append, List.countP_cons,
    logoParagraphA4, titleParagraphA4, subtitleParagraphA4, redRuleA4,
    authorParagraphA4, countP_keepNext_flatMap]

/-- C3: in both presets the logo display height is
`Math.round(displayWidth * (466 / 2000))`: 42 for the wide (A4) preset
with width 180, and 35 for the narrow (6x9) preset with width 150. -/
theorem logo_height_round :
    LOGO_DISPLAY_H_A4 = jsRound (LOGO_DISPLAY_W_A4 * LOGO_ASPECT)
    ∧ LOGO_DISPLAY_H_M = jsRound (LOGO_DISPLAY_W_M * LOGO_ASPECT)
    ∧ LOGO_ASPECT = 466 / 2000
    ∧ LOGO_DISPLAY_W_A4 = 180 ∧ LOGO_DISPLAY_H_A4 = 42
    ∧ LOGO_DISPLAY_W_M = 150 ∧ LOGO_DISPLAY_H_M = 35 := by
  refine ⟨rfl, rfl, rfl, rfl, ?_, rfl, ?_⟩
  · norm_num [LOGO_DISPLAY_H_A4, jsRound, LOGO_ASPECT, LOGO_DISPLAY_W_A4]
  · norm_num [LOGO_DISPLAY_H_M, jsRound, LOGO_ASPECT, LOGO_DISPLAY_W_M]

/-- C5: a spacer block appears in a built section exactly once per present
`after` list and once per present `after2` list; a section with bullets and
`after` renders heading, bullets, one spacer, then the after-paragraphs, and
a section with only bullets renders heading plus bullets, with no spacer. -/
theorem buildSection_spacer_iff (tk : Tokens) (sec : Section) :
    ((buildSection tk sec).countP (fun p => decide (p = spacer 60))
        = (if sec.after.isSome then 1 else 0)
          + (if sec.after2.isSome then 1 else 0))
    ∧ (∀ h bs af, buildSection tk
          { heading := h, bullets := some bs, after := some af } =
        sectionHeading tk h ::
          (bs.map (bulletP tk) ++ spacer 60 :: af.map (bodyP tk)))
    ∧ (∀ h bs, buildSection tk { heading := h, bullets := some bs } =
        sectionHeading tk h :: bs.map (bulletP tk)) := by
  refine ⟨?_, ?_, ?_⟩
  · rcases sec with ⟨h, ps, bs, af, bs2, af2⟩
    rcases af with _ | afl <;> rcases af2 with _ | afl2 <;>
      simp [buildSection, List.countP_append, List.countP_cons,
        List.countP_map, Function.comp_def, bodyP_ne_spacer,
        bulletP_ne_spacer, sectionHeading_ne_spacer]
  · intro h bs af
    simp [buildSection]
  · intro h bs
    simp [buildSection]

/-- C6: when the content has no sections, the rendered children are exactly
the five title-block paragraphs (logo, title, subtitle, red rule, author)
and contain no section blocks. -/
theorem renderChildrenA4_no_sections (d : List Nat) (c : Content)
    (hs : c.sections = []) :
    renderChildrenA4 d c =
      [logoParagraphA4 d, titleParagraphA4 c, subtitleParagraphA4 c,
       redRuleA4, authorParagraphA4 c]
    ∧ (renderChildrenA4 d c).length = 5
    ∧ (renderChildrenA4 d c).countP (fun p => p.keepNext) = 0 := by
  refine ⟨?_, ?_, ?_⟩ <;>
    simp [renderChildrenA4, hs, logoParagraphA4, titleParagraphA4,
      subtitleParagraphA4, redRuleA4, authorParagraphA4]

/-- Witness for `renderChildrenA4_no_sections` at a concrete content. -/
theorem renderChildrenA4_no_sections_witness :
    renderChildrenA4 []
        { title := "T", subtitle := "S", author := "A", sections := [] } =
      [logoParagraphA4 [],
       titleParagraphA4
         { title := "T", subtitle := "S", author := "A", sections := [] },
       subtitleParagraphA4
         { title := "T", subtitle := "S", author := "A", sections := [] },
       redRuleA4,
       authorParagraphA4
         { title := "T", subtitle := "S", author := "A", sections := [] }] :=
  (renderChildrenA4_no_sections []
    { title := "T", subtitle := "S", author := "A", sections := [] } rfl).1

/-- C7: the render pipeline is a pure function of its inputs; equal inputs
give structurally identical documents for both presets. -/
theorem render_deterministic (da db : List Nat) (ca cb : Content)
    (hd : da = db) (hc : ca = cb) :
    renderDocA4 da ca = renderDocA4 db cb
    ∧ renderDocM da ca = renderDocM db cb := by
  subst hd
  subst hc
  exact ⟨rfl, rfl⟩

/-- Witness for `render_deterministic` at a concrete input. -/
theorem render_deterministic_witness :
    renderDocA4 [] exampleContent = renderDocA4 [] exampleContent
    ∧ renderDocM [] exampleContent = renderDocM [] exampleContent :=
  render_deterministic [] [] exampleContent exampleContent rfl rfl

/-- C8: when the logo read fails, the program propagates the error and
produces no document: the pure assembly step never runs. -/
theorem runProgramA4_logo_failure (e : String) (c : Content) :
    runProgramA4 (.error e) c = .error e
    ∧ (runProgramA4 (.error e) c).isOk = false
    ∧ (∀ logoData, runProgramA4 (.ok logoData) c =
        .ok (renderDocA4 logoData c)) :=
  ⟨rfl, rfl, fun _ => rfl⟩

/-- C9 counterexample: in a built section, a bullet list item (the block
with a numbering reference) does not carry the widow-control flag, so the
claim that every bullet item is marked fails on this concrete input. -/
theorem bullet_widowControl_counterexample :
    bulletP a4Tokens "Bullet one" ∈ buildSection a4Tokens
        { heading := "H", bullets := some ["Bullet one"] }
    ∧ (bulletP a4Tokens "Bullet one").numbering.isSome = true
    ∧ (bulletP a4Tokens "Bullet one").widowControl = false := by
  refine ⟨?_, rfl, rfl⟩
  decide

lemma mem_buildSection (tk : Tokens) (sec : Section) (p : Paragraph)
    (hp : p ∈ buildSection tk sec) :
    p = sectionHeading tk sec.heading
    ∨ (∃ spans, p = bodyP tk spans)
    ∨ (∃ t, p = bulletP tk t)
    ∨ p = spacer 60 := by
  rcases sec with ⟨h, ps, bs, af, bs2, af2⟩
  rcases af with _ | afl <;> rcases af2 with _ | afl2 <;>
    simp only [buildSection, List.mem_append, List.mem_cons, List.mem_map,
      List.mem_singleton, List.not_mem_nil] at hp <;>
    aesop

/-- C9 (amended): every paragraph built from a section's `paragraphs`,
`after` or `after2` span lists carries the widow-control flag, but bullet
list items do not: `bulletP` never sets it. -/
theorem widowControl_on_body_not_bullets (tk : Tokens) :
    (∀ spans, (bodyP tk spans).widowControl = true)
    ∧ (∀ t, (bulletP tk t).widowControl = false)
    ∧ (∀ sec p, p ∈ buildSection tk sec → p.numbering.isSome →
        p.widowControl = false) := by
  refine ⟨fun _ => rfl, fun _ => rfl, ?_⟩
  intro sec p hp hnum
  rcases mem_buildSection tk sec p hp with h1 | ⟨spans, rfl⟩ | ⟨t, rfl⟩ | h4
  · subst h1
    rfl
  · simp [bodyP] at hnum
  · rfl
  · subst h4
    rfl

/-- Witness for `widowControl_on_body_not_bullets` at a concrete input. -/
theorem widowControl_on_body_not_bullets_witness :
    (bulletP a4Tokens "Bullet one").widowControl = false :=
  (widowControl_on_body_not_bullets a4Tokens).2.2
    { heading := "H", bullets := some ["Bullet one"] }
    (bulletP a4Tokens "Bullet one") (by decide) (by decide)

/-- C10: a section whose optional body fields are all absent still builds,
and produces exactly one block: its heading. -/
theorem buildSection_heading_only (tk : Tokens) (h : String) :
    buildSection tk { heading := h } = [sectionHeading tk h]
    ∧ (buildSection tk { heading := h }).length = 1 :=
  ⟨rfl, rfl⟩

lemma runsOf_bodyP (tk : Tokens) (spans : List Span) :
    runsOf (bodyP tk spans) = spans.map fun s =>
      { text := s.text,
        font := if s.bold then tk.fonts.heading else tk.fonts.body,
        size := tk.sizes.body, color := tk.palette.text,
        bold := s.bold, italics := s.italics } := by
  induction spans with
  | nil => rfl
  | cons s t ih =>
      simpa [runsOf, bodyP, makeRuns] using ih

lemma fontOk_runsOf_buildSection (sec : Section) (r : TextRun)
    (hr : ∃ p ∈ buildSection a4Tokens sec, r ∈ runsOf p) :
    fontOk a4Tokens r := by
  obtain ⟨p, hp, hrp⟩ := hr
  rcases mem_buildSection _ _ _ hp with h1 | ⟨spans, rfl⟩ | ⟨t, rfl⟩ | h4
  · subst h1
    simp [runsOf, sectionHeading] at hrp
    subst hrp
    simp [fontOk, a4Tokens, FONTS_A4]
  · rw [runsOf_bodyP] at hrp
    simp [List.mem_map] at hrp
    obtain ⟨s, _, rfl⟩ := hrp
    cases hb : s.bold <;> simp [fontOk, a4Tokens, FONTS_A4, hb]
  · simp [runsOf, bulletP] at hrp
    subst hrp
    simp [fontOk, a4Tokens, FONTS_A4]
  · subst h4
    simp [runsOf, spacer] at hrp

lemma fontOk_renderChildrenA4 (d : List Nat) (c : Content) (r : TextRun)
    (hr : ∃ p ∈ renderChildrenA4 d c, r ∈ runsOf p) :
    fontOk a4Tokens r := by
  obtain ⟨p, hp, hrp⟩ := hr
  simp only [renderChildrenA4, List.cons_append, List.nil_append,
    List.mem_cons] at hp
  rcases hp with rfl | rfl | rfl | rfl | rfl | hp
  · simp [runsOf, logoParagraphA4] at hrp
  · simp [runsOf, titleParagraphA4] at hrp
    subst hrp
    simp [fontOk, a4Tokens, FONTS_A4]
  · simp [runsOf, subtitleParagraphA4] at hrp
    subst hrp
    simp [fontOk, a4Tokens, FONTS_A4]
  · simp [runsOf, redRuleA4] at hrp
  · simp [runsOf, authorParagraphA4] at hrp
    subst hrp
    simp [fontOk, a4Tokens, FONTS_A4]
  · rw [List.mem_flatMap] at hp
    obtain ⟨sec, hsec, hpsec⟩ := hp
    exact fontOk_runsOf_buildSection sec r ⟨p, hpsec, hrp⟩

/-- C2 counterexample: the page-header "SKYETRAIN" run of the assembled
document resolves the heading font while its bold flag is false, so the
font-iff-bold claim fails on the rendered document at this concrete
input. -/
theorem font_iff_bold_fails_on_header :
    ({ text := "SKYETRAIN", font := "Arial", size := 16,
       color := "CCCCCC", characterSpacing := some 60 } : TextRun)
      ∈ allRuns (renderDocA4 [] exampleContent)
    ∧ ({ text := "SKYETRAIN", font := "Arial", size := 16,
         color := "CCCCCC", characterSpacing := some 60 } : TextRun).font
        = FONTS_A4.heading
    ∧ ({ text := "SKYETRAIN", font := "Arial", size := 16,
         color := "CCCCCC", characterSpacing := some 60 } : TextRun).bold
        = false := by
  refine ⟨?_, rfl, rfl⟩
  decide

/-- C2 (amended): every text run of the title block, the section bodies
and the footer resolves the heading font exactly when its bold flag is
set, and every non-bold such run resolves the body font; the one
exception is the page-header label run, which uses the heading font with
bold unset. -/
theorem font_iff_bold_except_header (d : List Nat) (c : Content) :
    (∀ r ∈ (renderChildrenA4 d c ++ [footerParagraphA4]).flatMap runsOf,
        (r.font = FONTS_A4.heading ↔ r.bold = true)
        ∧ (r.bold = false → r.font = FONTS_A4.body))
    ∧ (∀ r ∈ runsOf headerParagraphA4,
        r.font = FONTS_A4.heading ∧ r.bold = false) := by
  constructor
  · intro r hr
    rw [List.mem_flatMap] at hr
    obtain ⟨p, hp, hrp⟩ := hr
    rcases List.mem_append.mp hp with hp | hp
    · have := fontOk_renderChildrenA4 d c r ⟨p, hp, hrp⟩
      simpa [fontOk, a4Tokens] using this
    · simp only [List.mem_singleton] at hp
      subst hp
      simp [runsOf, footerParagraphA4] at hrp
      subst hrp
      simp [FONTS_A4]
  · intro r hr
    simp [runsOf, headerParagraphA4] at hr
    subst hr
    exact ⟨rfl, rfl⟩

/-- Witness for `font_iff_bold_except_header` at a concrete non-bold run:
the subtitle run of the shipped placeholder content resolves the body
font. -/
theorem font_iff_bold_except_header_witness :
    ({ text := "One-line description of the article", font := "Georgia",
       size := 20, color := "777777",
       italics := true } : TextRun).font = FONTS_A4.body :=
  ((font_iff_bold_except_header [] exampleContent).1
    { text := "One-line description of the article", font := "Georgia",
      size := 20, color := "777777", italics := true }
    (by decide)).2 rfl

/-- C4 counterexample: the two presets do not share every non-geometry
constant: the `SPACING` token groups differ (`titleBlockEnd` is 480 in the
A4 script and 400 in the 6x9 script), and the author paragraph built from
the same content differs between the presets. -/
theorem presets_not_identical :
    SPACING_A4.titleBlockEnd = 480
    ∧ SPACING_M.titleBlockEnd = 400
    ∧ (SPACING_A4 == SPACING_M) = false
    ∧ (authorParagraphA4 exampleContent == authorParagraphM exampleContent)
        = false := by
  refine ⟨rfl, rfl, ?_, ?_⟩
  · decide
  · decide

lemma bodyP_m_a4 : bodyP mTokens = bodyP a4Tokens := by
  funext spans
  simp [bodyP, makeRuns, mTokens, a4Tokens, SPACING_M, SPACING_A4,
    FONTS_M, FONTS_A4, SIZES_M, SIZES_A4, PALETTE_M, PALETTE_A4]

lemma bulletP_m_a4 : bulletP mTokens = bulletP a4Tokens := by
  funext t
  simp [bulletP, mTokens, a4Tokens, SPACING_M, SPACING_A4,
    FONTS_M, FONTS_A4, SIZES_M, SIZES_A4, PALETTE_M, PALETTE_A4]

lemma sectionHeading_m_a4 : sectionHeading mTokens = sectionHeading a4Tokens := by
  funext t
  simp [sectionHeading, mTokens, a4Tokens, SPACING_M, SPACING_A4,
    FONTS_M, FONTS_A4, SIZES_M, SIZES_A4, PALETTE_M, PALETTE_A4]

lemma buildSection_m_a4 : buildSection mTokens = buildSection a4Tokens := by
  funext sec
  rcases sec with ⟨h, ps, bs, af, bs2, af2⟩
  rcases af with _ | afl <;> rcases af2 with _ | afl2 <;>
    simp [buildSection, bodyP_m_a4, bulletP_m_a4, sectionHeading_m_a4]

/-- C4 (amended): the presets share palette, fonts, sizes and every
section-body spacing token, so section builders, header, footer, bullet
config and default run style coincide; but beyond page dimensions, margins
and logo width they also differ in the title-block spacing constants
(`titleBlockEnd` 480 vs 400 and the title-block paragraph spacings), so
the produced documents agree exactly on everything after the title
block. -/
theorem presets_differ_only_in_geometry_and_title_spacing :
    PALETTE_M = PALETTE_A4 ∧ FONTS_M = FONTS_A4 ∧ SIZES_M = SIZES_A4
    ∧ SPACING_M.bodyAfter = SPACING_A4.bodyAfter
    ∧ SPACING_M.bodyLine = SPACING_A4.bodyLine
    ∧ SPACING_M.bulletAfter = SPACING_A4.bulletAfter
    ∧ SPACING_M.sectionBefore = SPACING_A4.sectionBefore
    ∧ SPACING_M.sectionAfter = SPACING_A4.sectionAfter
    ∧ SPACING_M.titleBlockEnd = 400 ∧ SPACING_A4.titleBlockEnd = 480
    ∧ buildSection mTokens = buildSection a4Tokens
    ∧ headerParagraphM = headerParagraphA4
    ∧ footerParagraphM = footerParagraphA4
    ∧ (∀ d c, (renderDocM d c).bullets = (renderDocA4 d c).bullets
        ∧ (renderDocM d c).defaultFont = (renderDocA4 d c).defaultFont
        ∧ (renderDocM d c).defaultSize = (renderDocA4 d c).defaultSize
        ∧ (renderDocM d c).children.drop 5 = (renderDocA4 d c).children.drop 5
        ∧ (renderDocM d c).page =
            { width := 8640, height := 12960, marginTop := 1080,
              marginRight := 1080, marginBottom := 1080, marginLeft := 1080 }
        ∧ (renderDocA4 d c).page =
            { width := 11906, height := 16838, marginTop := 1440,
              marginRight := 1600, marginBottom := 1440,
              marginLeft := 1600 }) := by
  refine ⟨rfl, rfl, rfl, rfl, rfl, rfl, rfl, rfl, rfl, rfl,
    buildSection_m_a4, rfl, rfl, ?_⟩
  intro d c
  refine ⟨rfl, rfl, rfl, ?_, rfl, rfl⟩
  show (renderChildrenM d c).drop 5 = (renderChildrenA4 d c).drop 5
  unfold renderChildrenM renderChildrenA4
  have h5m : ([logoParagraphM d, titleParagraphM c, subtitleParagraphM c,
      redRuleM, authorParagraphM c] : List Paragraph).length = 5 := rfl
  have h5a : ([logoParagraphA4 d, titleParagraphA4 c, subtitleParagraphA4 c,
      redRuleA4, authorParagraphA4 c] : List Paragraph).length = 5 := rfl
  rw [List.drop_left' h5m, List.drop_left' h5a, buildSection_m_a4]

end Skyetrain
